import Mathlib

/-!
Shallow embedding of `src/main.cpp` (Particle tracker OBD-II CAN-bus sampler).

The program is a single cooperative loop over global state:
frame receive/decode, per-quantity (RPM / Speed) request-period blocks that
classify the latest sample into off/idle/non-idle buckets, a periodic debug
log, and an adaptive publish trigger.  A location-generation callback reads
the aggregate counters into a nine-field snapshot and resets them.

Machine integers: the C `int` globals are modelled as `Int` (their C division
`/` truncates toward zero, modelled with `Int.tdiv`); the `unsigned long`
millisecond clocks are 32-bit, so elapsed-time subtraction `millis() - t0`
is modelled as subtraction modulo 2^32 (`wsub`).  `millis()` is modelled as
a single per-iteration reading: all calls within one loop iteration return
the same value (the clock is monotone and a loop iteration is short).
`unsigned char` payload bytes are `Fin 256`.
-/

/-- Constant `SERVICE_CURRENT_DATA` (main.cpp line 42). -/
def SERVICE_CURRENT_DATA : Nat := 0x01

/-- Constant `OBD_CAN_REQUEST_ID` (main.cpp line 46). -/
def OBD_CAN_REQUEST_ID : Nat := 0x7DF

/-- Constant `OBD_CAN_REPLY_ID` (main.cpp line 47). -/
def OBD_CAN_REPLY_ID : Nat := 0x7E8

/-- Constant `PID_ENGINE_RPM` (main.cpp line 50). -/
def PID_ENGINE_RPM : Nat := 0x0C

/-- Constant `PID_VEHICLE_SPEED` (main.cpp line 51). -/
def PID_VEHICLE_SPEED : Nat := 0x0D

/-- Constant `requestRpmPeriod` (main.cpp line 61), milliseconds. -/
def requestRpmPeriod : Nat := 100

/-- Constant `requestSpeedPeriod` (main.cpp line 62), milliseconds. -/
def requestSpeedPeriod : Nat := 100

/-- Constant `engineLogPeriod` (main.cpp line 77), milliseconds, 0 = disable. -/
def engineLogPeriod : Nat := 2000

/-- The modulus 2^32 of `unsigned long` arithmetic on the 32-bit target. -/
def UINT32_MOD : Nat := 4294967296

/-- Wrapping 32-bit subtraction `a - b`, as in `millis() - lastMillis`. -/
def wsub (a b : Nat) : Nat := (a + (UINT32_MOD - b % UINT32_MOD)) % UINT32_MOD

/-- The seven aggregate counters kept per monitored quantity
(`numSamplesRPM` ... `nonIdleMaxRPM` and the `SPEED` twins,
main.cpp lines 66-72).  All are C `int` globals initialised to 0. -/
structure EngineStats where
  numSamples : Int
  offSamples : Int
  idleSamples : Int
  nonIdleSamples : Int
  nonIdleSum : Int
  nonIdleMin : Int
  nonIdleMax : Int
deriving Repr, DecidableEq

/-- The all-zero initial value of the counters (global initialisers,
main.cpp lines 66-72; also the value after the callback's reset). -/
def EngineStats.init : EngineStats :=
  { numSamples := 0, offSamples := 0, idleSamples := 0, nonIdleSamples := 0
    nonIdleSum := 0, nonIdleMin := 0, nonIdleMax := 0 }

/-- One aggregator update at a request-period boundary: the statement
sequence `numSamplesRPM++; if (lastRPM == 0) ... else if (lastRPM < idleRPM)
... else ...` (main.cpp lines 210-230; the SPEED block lines 261-282 is the
same code on the SPEED globals). -/
def recordSample (s : EngineStats) (lastVal idleThreshold : Int) : EngineStats :=
  let s := { s with numSamples := s.numSamples + 1 }
  if lastVal = 0 then
    { s with offSamples := s.offSamples + 1 }
  else if lastVal < idleThreshold then
    { s with idleSamples := s.idleSamples + 1 }
  else
    let s := { s with nonIdleSamples := s.nonIdleSamples + 1 }
    let s := { s with nonIdleSum := s.nonIdleSum + lastVal }
    let s := if lastVal < s.nonIdleMin ∨ s.nonIdleMin = 0 then
        { s with nonIdleMin := lastVal } else s
    let s := if s.nonIdleMax < lastVal then
        { s with nonIdleMax := lastVal } else s
    s

/-- The guarded mean `nonIdleSamples ? (nonIdleSum / nonIdleSamples) : 0`,
computed identically in the debug-log block (main.cpp lines 311-312) and in
`myLocationGenerationCallback` (lines 346-347).  C `int` division truncates
toward zero, which is `Int.tdiv`. -/
def statsMean (s : EngineStats) : Int :=
  if s.nonIdleSamples ≠ 0 then Int.tdiv s.nonIdleSum s.nonIdleSamples else 0

/-- Folding one aggregator update per period over a stream of latest-sample
values (one value per elapsed request period). -/
def recordSamples (idleThreshold : Int) (s : EngineStats) (vs : List Int) : EngineStats :=
  vs.foldl (fun st v => recordSample st v idleThreshold) s

/-- An inbound CAN frame as read by `readMsgBufID` (main.cpp lines 179-183):
`rxId` is the raw 32-bit identifier word (bit 31 set marks an extended
frame), `rxBuf` the 8 payload bytes. -/
structure CanFrame where
  rxId : Nat
  rxBuf : Fin 8 → Fin 256

/-- Build an 8-byte payload from a list (missing entries are 0); used only
to write down concrete frames. -/
def mkBuf (l : List (Fin 256)) : Fin 8 → Fin 256 :=
  fun i => l.getD i.val 0

/-- The cloud-synchronised configuration settings `idleRPM`, `idleSPEED`,
`fastPublishPeriod` (main.cpp lines 84-86), C `int` globals. -/
structure Config where
  idleRPM : Int
  idleSPEED : Int
  fastPublishPeriod : Int
deriving Repr, DecidableEq

/-- The default settings values (main.cpp lines 84-86). -/
def Config.default : Config :=
  { idleRPM := 1600, idleSPEED := 10, fastPublishPeriod := 60000 }

/-- The mutable global state touched by `loop` and the location callback:
`lastRPM`/`lastSPEED` (line 65), the two counter groups (lines 66-72), the
period clocks (lines 58-59, 76, 81) and the two function-local `static bool
errorFlag`s (lines 238, 290). -/
structure TrackerState where
  lastRPM : Int
  lastSPEED : Int
  rpmStats : EngineStats
  speedStats : EngineStats
  requestRpmLastMillis : Nat
  requestSpeedLastMillis : Nat
  lastEngineLog : Nat
  lastFastPublish : Nat
  errorFlagRPM : Bool
  errorFlagSPEED : Bool
deriving Repr, DecidableEq

/-- Initial global state (all the globals' initialisers are 0 / false). -/
def initialState : TrackerState :=
  { lastRPM := 0, lastSPEED := 0
    rpmStats := EngineStats.init, speedStats := EngineStats.init
    requestRpmLastMillis := 0, requestSpeedLastMillis := 0
    lastEngineLog := 0, lastFastPublish := 0
    errorFlagRPM := false, errorFlagSPEED := false }

/-- External inputs consumed by one `loop` iteration: the millis reading,
the D9 key-in pin, `Particle.connected()`, the pending inbound frame if the
CAN interrupt line is asserted, and the status results of the two
`sendMsgBuf` calls (true = `CAN_OK`). -/
structure LoopInput where
  now : Nat
  keyIn : Bool
  connected : Bool
  frame : Option CanFrame
  sendRpmOk : Bool
  sendSpeedOk : Bool

/-- The response decoder (main.cpp lines 185-200): on a standard frame
(bit 31 of the raw id clear) whose id, byte count, service-response byte and
PID match one of the two expected reply shapes, store the decoded value into
`lastRPM` (`(rxBuf[3] << 8 | rxBuf[4]) / 4`) or `lastSPEED` (`rxBuf[3]`);
every other frame is dropped with no state change. -/
def processFrame (f : CanFrame) (s : TrackerState) : TrackerState :=
  if f.rxId &&& 0x80000000 = 0 then
    if f.rxId = OBD_CAN_REPLY_ID ∧ (f.rxBuf 0).val = 0x04 ∧ (f.rxBuf 1).val = 0x41 ∧
        (f.rxBuf 2).val = PID_ENGINE_RPM then
      { s with lastRPM :=
          Int.tdiv ((((f.rxBuf 3).val <<< 8) ||| (f.rxBuf 4).val : Nat) : Int) 4 }
    else if f.rxId = OBD_CAN_REPLY_ID ∧ (f.rxBuf 0).val = 0x03 ∧ (f.rxBuf 1).val = 0x41 ∧
        (f.rxBuf 2).val = PID_VEHICLE_SPEED then
      { s with lastSPEED := ((f.rxBuf 3).val : Int) }
    else s
  else s

/-- The receive block `if (!digitalRead(CAN_INT)) ...` (lines 178-202):
process the pending frame when there is one. -/
def stepFrame (i : LoopInput) (s : TrackerState) : TrackerState :=
  match i.frame with
  | none => s
  | some f => processFrame f s

/-- The RPM request block (main.cpp lines 205-253): when the request period
has elapsed, reset the period clock, run one aggregator update on the
current `lastRPM`, clear `lastRPM`, and (when the key is in) send the
request and update the edge-triggered `errorFlag` from the send status. -/
def stepRpm (cfg : Config) (i : LoopInput) (s : TrackerState) : TrackerState :=
  if requestRpmPeriod ≤ wsub i.now s.requestRpmLastMillis then
    let s1 := { s with requestRpmLastMillis := i.now
                       rpmStats := recordSample s.rpmStats s.lastRPM cfg.idleRPM
                       lastRPM := 0 }
    if i.keyIn then
      if i.sendRpmOk then { s1 with errorFlagRPM := false }
      else { s1 with errorFlagRPM := true }
    else s1
  else s

/-- The SPEED request block (main.cpp lines 256-305), same shape as the RPM
block on the SPEED globals. -/
def stepSpeed (cfg : Config) (i : LoopInput) (s : TrackerState) : TrackerState :=
  if requestSpeedPeriod ≤ wsub i.now s.requestSpeedLastMillis then
    let s1 := { s with requestSpeedLastMillis := i.now
                       speedStats := recordSample s.speedStats s.lastSPEED cfg.idleSPEED
                       lastSPEED := 0 }
    if i.keyIn then
      if i.sendSpeedOk then { s1 with errorFlagSPEED := false }
      else { s1 with errorFlagSPEED := true }
    else s1
  else s

/-- The debug-log block (main.cpp lines 308-327): it only reads the
counters (without resetting) and advances `lastEngineLog`. -/
def stepLog (i : LoopInput) (s : TrackerState) : TrackerState :=
  if engineLogPeriod ≠ 0 ∧ engineLogPeriod ≤ wsub i.now s.lastEngineLog then
    { s with lastEngineLog := i.now }
  else s

/-- The adaptive publish trigger (main.cpp lines 330-340): when connected
and `lastRPM >= idleRPM`, and `fastPublishPeriod > 0` with at least that
many milliseconds since `lastFastPublish`, record the publish time and fire
`triggerLocPub` (the returned Bool). -/
def stepPublish (cfg : Config) (connected : Bool) (now : Nat) (s : TrackerState) :
    TrackerState × Bool :=
  if connected = true ∧ cfg.idleRPM ≤ s.lastRPM then
    if 0 < cfg.fastPublishPeriod ∧ cfg.fastPublishPeriod.toNat ≤ wsub now s.lastFastPublish then
      ({ s with lastFastPublish := now }, true)
    else (s, false)
  else (s, false)

/-- One full `loop` iteration (main.cpp lines 156-342), in source order:
receive/decode, RPM block, SPEED block, debug log, adaptive publish.  The
Bool is whether the adaptive trigger fired. -/
def loopStep (cfg : Config) (i : LoopInput) (s : TrackerState) : TrackerState × Bool :=
  stepPublish cfg i.connected i.now (stepLog i (stepSpeed cfg i (stepRpm cfg i (stepFrame i s))))

/-- The nine numeric fields written by `myLocationGenerationCallback`
(main.cpp lines 349-359). -/
structure EngineSnapshot where
  engineOff : Int
  engineIdle : Int
  engineNonIdle : Int
  engineRpmMin : Int
  engineRpmMean : Int
  engineRpmMax : Int
  engineSpeedMin : Int
  engineSpeedMean : Int
  engineSpeedMax : Int
deriving Repr, DecidableEq

/-- The all-zero snapshot. -/
def zeroSnapshot : EngineSnapshot :=
  { engineOff := 0, engineIdle := 0, engineNonIdle := 0
    engineRpmMin := 0, engineRpmMean := 0, engineRpmMax := 0
    engineSpeedMin := 0, engineSpeedMean := 0, engineSpeedMax := 0 }

/-- The callback `myLocationGenerationCallback` (main.cpp lines 344-369): compute the
guarded means, write the nine fields from the current counters (the
seconds-equivalent fields scale a counter by the request period in ms and
divide by 1000), then zero every counter of both quantities.  Returns the
written snapshot together with the two post-reset counter groups. -/
def myLocationGenerationCallback (rpm speed : EngineStats) :
    EngineSnapshot × EngineStats × EngineStats :=
  let nonIdleRpmMean := statsMean rpm
  let nonIdleSpeedMean := statsMean speed
  ({ engineOff := Int.tdiv (rpm.offSamples * (requestRpmPeriod : Int)) 1000
     engineIdle := Int.tdiv (rpm.idleSamples * (requestRpmPeriod : Int)) 1000
     engineNonIdle := Int.tdiv (rpm.nonIdleSamples * (requestRpmPeriod : Int)) 1000
     engineRpmMin := rpm.nonIdleMin
     engineRpmMean := nonIdleRpmMean
     engineRpmMax := rpm.nonIdleMax
     engineSpeedMin := speed.nonIdleMin
     engineSpeedMean := nonIdleSpeedMean
     engineSpeedMax := speed.nonIdleMax },
   EngineStats.init, EngineStats.init)

/-- An event visible to the global state: one `loop` iteration, or one
invocation of the location-generation callback by an outbound publish. -/
inductive SysEvent where
  | iter (i : LoopInput)
  | locPub

/-- Apply one event to the global state. -/
def sysStep (cfg : Config) (s : TrackerState) : SysEvent → TrackerState
  | SysEvent.iter i => (loopStep cfg i s).1
  | SysEvent.locPub =>
      let r := myLocationGenerationCallback s.rpmStats s.speedStats
      { s with rpmStats := r.2.1, speedStats := r.2.2 }

/-- Run the system from power-on over a sequence of events. -/
def runSys (cfg : Config) (evs : List SysEvent) : TrackerState :=
  evs.foldl (sysStep cfg) initialState

/-- The list of `millis()` values at which the adaptive trigger fires along
a run of consecutive loop iterations. -/
def fireTimes (cfg : Config) (s : TrackerState) : List LoopInput → List Nat
  | [] => []
  | i :: is =>
    let r := loopStep cfg i s
    if r.2 then i.now :: fireTimes cfg r.1 is else fireTimes cfg r.1 is

/-- Closed form of one aggregator update: exactly one bucket counter is
incremented, chosen by the off / idle / non-idle classification, and the
non-idle branch maintains sum, min (sentinel-or-smaller) and max. -/
theorem recordSample_eq (s : EngineStats) (v t : Int) :
    recordSample s v t =
      if v = 0 then
        { s with numSamples := s.numSamples + 1, offSamples := s.offSamples + 1 }
      else if v < t then
        { s with numSamples := s.numSamples + 1, idleSamples := s.idleSamples + 1 }
      else
        { s with numSamples := s.numSamples + 1
                 nonIdleSamples := s.nonIdleSamples + 1
                 nonIdleSum := s.nonIdleSum + v
                 nonIdleMin := if v < s.nonIdleMin ∨ s.nonIdleMin = 0 then v else s.nonIdleMin
                 nonIdleMax := if s.nonIdleMax < v then v else s.nonIdleMax } := by
  unfold recordSample
  dsimp only
  by_cases hv : v = 0
  · rw [if_pos hv, if_pos hv]
  · rw [if_neg hv, if_neg hv]
    by_cases hlt : v < t
    · rw [if_pos hlt, if_pos hlt]
    · rw [if_neg hlt, if_neg hlt]
      by_cases hmin : v < s.nonIdleMin ∨ s.nonIdleMin = 0
      · rw [if_pos hmin, if_pos hmin]
        by_cases hmax : s.nonIdleMax < v
        · rw [if_pos hmax, if_pos hmax]
        · rw [if_neg hmax, if_neg hmax]
      · rw [if_neg hmin, if_neg hmin]
        by_cases hmax : s.nonIdleMax < v
        · rw [if_pos hmax, if_pos hmax]
        · rw [if_neg hmax, if_neg hmax]

/-- Invariant on one counter group: the buckets partition the total, the
non-idle count is non-negative, and min/max are still the 0 sentinel while
no non-idle sample has been seen. -/
@[reducible] def GoodStats (s : EngineStats) : Prop :=
  s.offSamples + s.idleSamples + s.nonIdleSamples = s.numSamples ∧
  0 ≤ s.nonIdleSamples ∧
  (s.nonIdleSamples = 0 → s.nonIdleMin = 0 ∧ s.nonIdleMax = 0)

theorem goodStats_init : GoodStats EngineStats.init := by
  unfold GoodStats EngineStats.init
  exact ⟨rfl, le_refl 0, fun _ => ⟨rfl, rfl⟩⟩

theorem goodStats_record (s : EngineStats) (v t : Int) (h : GoodStats s) :
    GoodStats (recordSample s v t) := by
  unfold GoodStats at h ⊢
  obtain ⟨h1, h2, h3⟩ := h
  rw [recordSample_eq]
  by_cases hv : v = 0
  · rw [if_pos hv]
    refine ⟨?_, ?_, ?_⟩ <;> dsimp only
    · omega
    · exact h2
    · exact h3
  · rw [if_neg hv]
    by_cases hlt : v < t
    · rw [if_pos hlt]
      refine ⟨?_, ?_, ?_⟩ <;> dsimp only
      · omega
      · exact h2
      · exact h3
    · rw [if_neg hlt]
      refine ⟨?_, ?_, ?_⟩ <;> dsimp only
      · omega
      · omega
      · intro hc
        exact absurd hc (by omega)

theorem goodStats_recordSamples (t : Int) :
    ∀ (vs : List Int) (s : EngineStats), GoodStats s → GoodStats (recordSamples t s vs)
  | [], _, h => h
  | v :: vs, s, h => goodStats_recordSamples t vs (recordSample s v t) (goodStats_record s v t h)

/-- Invariant on the full tracker state: both counter groups are good. -/
@[reducible] def GoodState (st : TrackerState) : Prop :=
  GoodStats st.rpmStats ∧ GoodStats st.speedStats

theorem goodState_initial : GoodState initialState :=
  ⟨goodStats_init, goodStats_init⟩

theorem goodState_stepFrame (i : LoopInput) (s : TrackerState) (h : GoodState s) :
    GoodState (stepFrame i s) := by
  unfold stepFrame
  cases i.frame with
  | none => exact h
  | some f =>
    unfold processFrame
    repeat' split
    all_goals exact h

theorem goodState_stepRpm (cfg : Config) (i : LoopInput) (s : TrackerState) (h : GoodState s) :
    GoodState (stepRpm cfg i s) := by
  unfold GoodState at h ⊢
  unfold stepRpm
  repeat' split
  all_goals first
    | exact ⟨goodStats_record _ _ _ h.1, h.2⟩
    | exact h

theorem goodState_stepSpeed (cfg : Config) (i : LoopInput) (s : TrackerState) (h : GoodState s) :
    GoodState (stepSpeed cfg i s) := by
  unfold GoodState at h ⊢
  unfold stepSpeed
  repeat' split
  all_goals first
    | exact ⟨h.1, goodStats_record _ _ _ h.2⟩
    | exact h

theorem goodState_stepLog (i : LoopInput) (s : TrackerState) (h : GoodState s) :
    GoodState (stepLog i s) := by
  unfold stepLog
  split
  · exact h
  · exact h

theorem goodState_stepPublish (cfg : Config) (c : Bool) (now : Nat) (s : TrackerState)
    (h : GoodState s) : GoodState (stepPublish cfg c now s).1 := by
  unfold stepPublish
  repeat' split
  all_goals exact h

theorem goodState_sysStep (cfg : Config) (s : TrackerState) (e : SysEvent) (h : GoodState s) :
    GoodState (sysStep cfg s e) := by
  cases e with
  | iter i =>
    unfold sysStep loopStep
    exact goodState_stepPublish cfg i.connected i.now _
      (goodState_stepLog i _ (goodState_stepSpeed cfg i _
        (goodState_stepRpm cfg i _ (goodState_stepFrame i s h))))
  | locPub =>
    unfold sysStep myLocationGenerationCallback GoodState
    exact ⟨goodStats_init, goodStats_init⟩

theorem goodState_foldl (cfg : Config) :
    ∀ (evs : List SysEvent) (s : TrackerState),
      GoodState s → GoodState (evs.foldl (sysStep cfg) s)
  | [], _, h => h
  | e :: es, s, h => goodState_foldl cfg es (sysStep cfg s e) (goodState_sysStep cfg s e h)

theorem goodState_runSys (cfg : Config) (evs : List SysEvent) : GoodState (runSys cfg evs) :=
  goodState_foldl cfg evs initialState goodState_initial

theorem stepFrame_lastFastPublish (i : LoopInput) (s : TrackerState) :
    (stepFrame i s).lastFastPublish = s.lastFastPublish := by
  unfold stepFrame
  cases i.frame with
  | none => rfl
  | some f =>
    unfold processFrame
    repeat' split
    all_goals rfl

theorem stepFrame_requestRpmLastMillis (i : LoopInput) (s : TrackerState) :
    (stepFrame i s).requestRpmLastMillis = s.requestRpmLastMillis := by
  unfold stepFrame
  cases i.frame with
  | none => rfl
  | some f =>
    unfold processFrame
    repeat' split
    all_goals rfl

theorem stepRpm_lastFastPublish (cfg : Config) (i : LoopInput) (s : TrackerState) :
    (stepRpm cfg i s).lastFastPublish = s.lastFastPublish := by
  unfold stepRpm
  repeat' split
  all_goals rfl

theorem stepSpeed_lastFastPublish (cfg : Config) (i : LoopInput) (s : TrackerState) :
    (stepSpeed cfg i s).lastFastPublish = s.lastFastPublish := by
  unfold stepSpeed
  repeat' split
  all_goals rfl

theorem stepLog_lastFastPublish (i : LoopInput) (s : TrackerState) :
    (stepLog i s).lastFastPublish = s.lastFastPublish := by
  unfold stepLog
  split
  all_goals rfl

theorem stepSpeed_lastRPM (cfg : Config) (i : LoopInput) (s : TrackerState) :
    (stepSpeed cfg i s).lastRPM = s.lastRPM := by
  unfold stepSpeed
  repeat' split
  all_goals rfl

theorem stepLog_lastRPM (i : LoopInput) (s : TrackerState) :
    (stepLog i s).lastRPM = s.lastRPM := by
  unfold stepLog
  split
  all_goals rfl

theorem stepRpm_lastRPM_due (cfg : Config) (i : LoopInput) (s : TrackerState)
    (hdue : requestRpmPeriod ≤ wsub i.now s.requestRpmLastMillis) :
    (stepRpm cfg i s).lastRPM = 0 := by
  unfold stepRpm
  rw [if_pos hdue]
  repeat' split
  all_goals rfl

/-- Composition of the four loop phases before the publish check leaves
`lastFastPublish` untouched. -/
theorem preSteps_lastFastPublish (cfg : Config) (i : LoopInput) (s : TrackerState) :
    (stepLog i (stepSpeed cfg i (stepRpm cfg i (stepFrame i s)))).lastFastPublish =
      s.lastFastPublish := by
  rw [stepLog_lastFastPublish, stepSpeed_lastFastPublish, stepRpm_lastFastPublish,
    stepFrame_lastFastPublish]

/-- Full case analysis of the publish check: when it fires it records `now`
and all four guard conditions held; when it does not fire the state is
untouched. -/
theorem stepPublish_spec (cfg : Config) (c : Bool) (now : Nat) (s : TrackerState) :
    ((stepPublish cfg c now s).2 = true →
      (stepPublish cfg c now s).1.lastFastPublish = now ∧ c = true ∧
      cfg.idleRPM ≤ s.lastRPM ∧ 0 < cfg.fastPublishPeriod ∧
      cfg.fastPublishPeriod.toNat ≤ wsub now s.lastFastPublish) ∧
    ((stepPublish cfg c now s).2 = false → (stepPublish cfg c now s).1 = s) := by
  unfold stepPublish
  by_cases hA : c = true ∧ cfg.idleRPM ≤ s.lastRPM
  · rw [if_pos hA]
    by_cases hB : 0 < cfg.fastPublishPeriod ∧
        cfg.fastPublishPeriod.toNat ≤ wsub now s.lastFastPublish
    · rw [if_pos hB]
      exact ⟨fun _ => ⟨rfl, hA.1, hA.2, hB.1, hB.2⟩, fun h => Bool.noConfusion h⟩
    · rw [if_neg hB]
      exact ⟨fun h => Bool.noConfusion h, fun _ => rfl⟩
  · rw [if_neg hA]
    exact ⟨fun h => Bool.noConfusion h, fun _ => rfl⟩

theorem stepPublish_snd_of_lt (cfg : Config) (c : Bool) (now : Nat) (s : TrackerState)
    (hlt : s.lastRPM < cfg.idleRPM) : (stepPublish cfg c now s).2 = false := by
  unfold stepPublish
  rw [if_neg (fun hc => absurd hc.2 (not_le.mpr hlt))]

theorem stepPublish_period_zero (cfg : Config) (c : Bool) (now : Nat) (s : TrackerState)
    (h : cfg.fastPublishPeriod = 0) : stepPublish cfg c now s = (s, false) := by
  unfold stepPublish
  by_cases hA : c = true ∧ cfg.idleRPM ≤ s.lastRPM
  · have hB : ¬(0 < cfg.fastPublishPeriod ∧
        cfg.fastPublishPeriod.toNat ≤ wsub now s.lastFastPublish) := by
      rw [h]
      intro hc
      exact absurd hc.1 (by decide)
    rw [if_pos hA, if_neg hB]
  · rw [if_neg hA]

/-- A fired loop iteration records its own time and respected the minimum
interval since the previous recorded publish time. -/
theorem loopStep_fired (cfg : Config) (i : LoopInput) (s : TrackerState)
    (h : (loopStep cfg i s).2 = true) :
    (loopStep cfg i s).1.lastFastPublish = i.now ∧
    cfg.fastPublishPeriod.toNat ≤ wsub i.now s.lastFastPublish := by
  unfold loopStep at h ⊢
  have hspec := (stepPublish_spec cfg i.connected i.now
    (stepLog i (stepSpeed cfg i (stepRpm cfg i (stepFrame i s))))).1 h
  exact ⟨hspec.1, preSteps_lastFastPublish cfg i s ▸ hspec.2.2.2.2⟩

theorem loopStep_not_fired (cfg : Config) (i : LoopInput) (s : TrackerState)
    (h : (loopStep cfg i s).2 = false) :
    (loopStep cfg i s).1.lastFastPublish = s.lastFastPublish := by
  unfold loopStep at h ⊢
  have hspec := (stepPublish_spec cfg i.connected i.now
    (stepLog i (stepSpeed cfg i (stepRpm cfg i (stepFrame i s))))).2 h
  rw [hspec]
  exact preSteps_lastFastPublish cfg i s

/-- Along any run of loop iterations, consecutive firing times of the
adaptive trigger (seeded with the recorded previous publish time) are at
least the configured interval apart. -/
theorem fireTimes_chain (cfg : Config) :
    ∀ (inputs : List LoopInput) (s : TrackerState),
      List.Chain (fun a b => cfg.fastPublishPeriod.toNat ≤ wsub b a)
        s.lastFastPublish (fireTimes cfg s inputs) := by
  intro inputs
  induction inputs with
  | nil => intro s; exact List.Chain.nil
  | cons i is ih =>
    intro s
    unfold fireTimes
    by_cases h : (loopStep cfg i s).2 = true
    · rw [if_pos h]
      have h1 := loopStep_fired cfg i s h
      exact List.Chain.cons h1.2 (h1.1 ▸ ih (loopStep cfg i s).1)
    · rw [if_neg h]
      have h2 : (loopStep cfg i s).2 = false := by
        revert h
        cases (loopStep cfg i s).2 <;> simp
      exact (loopStep_not_fired cfg i s h2) ▸ ih (loopStep cfg i s).1

/-- Shape of an RPM diagnostic reply accepted by the decoder
(main.cpp line 188). -/
@[reducible] def matchesRpmReply (f : CanFrame) : Prop :=
  f.rxId = OBD_CAN_REPLY_ID ∧ (f.rxBuf 0).val = 0x04 ∧ (f.rxBuf 1).val = 0x41 ∧
    (f.rxBuf 2).val = PID_ENGINE_RPM

/-- Shape of a vehicle-speed diagnostic reply accepted by the decoder
(main.cpp line 195). -/
@[reducible] def matchesSpeedReply (f : CanFrame) : Prop :=
  f.rxId = OBD_CAN_REPLY_ID ∧ (f.rxBuf 0).val = 0x03 ∧ (f.rxBuf 1).val = 0x41 ∧
    (f.rxBuf 2).val = PID_VEHICLE_SPEED

/-- A concrete loop-iteration input used in witnesses. -/
def idleInput : LoopInput :=
  { now := 100, keyIn := true, connected := true, frame := none
    sendRpmOk := true, sendSpeedOk := true }

/-- A concrete well-shaped RPM reply frame: raw value 0x1F40 = 8000,
engineering value 8000 / 4 = 2000 RPM. -/
def rpmReplyFrame : CanFrame :=
  { rxId := 0x7E8, rxBuf := mkBuf [0x04, 0x41, 0x0C, 0x1F, 0x40, 0, 0, 0] }

/-- A concrete frame with the correct reply identifier but a wrong
byte-count byte. -/
def wrongCountFrame : CanFrame :=
  { rxId := 0x7E8, rxBuf := mkBuf [0x05, 0x41, 0x0C, 0x1F, 0x40, 0, 0, 0] }

/-- A configuration with the fast-publish interval set to the disabling
sentinel 0. -/
def zeroPubConfig : Config :=
  { idleRPM := 1600, idleSPEED := 10, fastPublishPeriod := 0 }

/-- Claim C1: for both monitored quantities (RPM and Speed), in every state
reachable by any sequence of loop iterations and read+reset callbacks from
power-on — hence after every aggregator update at a period boundary and at
all times between resets — the bucket counters satisfy
offSamples + idleSamples + nonIdleSamples = numSamples; likewise for a bare
aggregator fed any sample stream from a reset. -/
theorem aggregate_sum_invariant (cfg : Config) (evs : List SysEvent) (thr : Int)
    (vs : List Int) :
    ((runSys cfg evs).rpmStats.offSamples + (runSys cfg evs).rpmStats.idleSamples +
        (runSys cfg evs).rpmStats.nonIdleSamples = (runSys cfg evs).rpmStats.numSamples) ∧
    ((runSys cfg evs).speedStats.offSamples + (runSys cfg evs).speedStats.idleSamples +
        (runSys cfg evs).speedStats.nonIdleSamples = (runSys cfg evs).speedStats.numSamples) ∧
    ((recordSamples thr EngineStats.init vs).offSamples +
        (recordSamples thr EngineStats.init vs).idleSamples +
        (recordSamples thr EngineStats.init vs).nonIdleSamples =
        (recordSamples thr EngineStats.init vs).numSamples) :=
  ⟨(goodState_runSys cfg evs).1.1, (goodState_runSys cfg evs).2.1,
   (goodStats_recordSamples thr vs EngineStats.init goodStats_init).1⟩

/-- Claim C2: each period-boundary update classifies the latest sample into
exactly one bucket — 0 increments offSamples; nonzero below the threshold
increments idleSamples; at or above the threshold increments nonIdleSamples,
adds to nonIdleSum, sets nonIdleMin when it is the 0 sentinel or the sample
is smaller, and sets nonIdleMax when the sample is larger — and with
threshold 1600 the stream [0, 800, 1600, 2000, 2400] yields offSamples=1,
idleSamples=1, nonIdleSamples=3, nonIdleMin=1600, nonIdleMax=2400 and
mean 2000. -/
theorem bucket_classification_and_example :
    (∀ (s : EngineStats) (v t : Int),
      recordSample s v t =
        if v = 0 then
          { s with numSamples := s.numSamples + 1, offSamples := s.offSamples + 1 }
        else if v < t then
          { s with numSamples := s.numSamples + 1, idleSamples := s.idleSamples + 1 }
        else
          { s with numSamples := s.numSamples + 1
                   nonIdleSamples := s.nonIdleSamples + 1
                   nonIdleSum := s.nonIdleSum + v
                   nonIdleMin := if v < s.nonIdleMin ∨ s.nonIdleMin = 0 then v
                     else s.nonIdleMin
                   nonIdleMax := if s.nonIdleMax < v then v else s.nonIdleMax }) ∧
    recordSamples 1600 EngineStats.init [0, 800, 1600, 2000, 2400] =
      { numSamples := 5, offSamples := 1, idleSamples := 1, nonIdleSamples := 3
        nonIdleSum := 6000, nonIdleMin := 1600, nonIdleMax := 2400 } ∧
    statsMean (recordSamples 1600 EngineStats.init [0, 800, 1600, 2000, 2400]) = 2000 :=
  ⟨recordSample_eq, by decide, by decide⟩

/-- Claim C3: the location-generation callback writes its snapshot from the
pre-reset counter values (min/max/guarded-mean straight from the counters,
the three seconds-equivalent fields scaled by the request period), then
zeroes every counter of both quantities, so an immediate second invocation
yields the all-zero snapshot. -/
theorem location_callback_read_reset (rpm speed : EngineStats) :
    (myLocationGenerationCallback rpm speed).1 =
      { engineOff := Int.tdiv (rpm.offSamples * (requestRpmPeriod : Int)) 1000
        engineIdle := Int.tdiv (rpm.idleSamples * (requestRpmPeriod : Int)) 1000
        engineNonIdle := Int.tdiv (rpm.nonIdleSamples * (requestRpmPeriod : Int)) 1000
        engineRpmMin := rpm.nonIdleMin
        engineRpmMean := statsMean rpm
        engineRpmMax := rpm.nonIdleMax
        engineSpeedMin := speed.nonIdleMin
        engineSpeedMean := statsMean speed
        engineSpeedMax := speed.nonIdleMax } ∧
    (myLocationGenerationCallback rpm speed).2.1 = EngineStats.init ∧
    (myLocationGenerationCallback rpm speed).2.2 = EngineStats.init ∧
    (myLocationGenerationCallback (myLocationGenerationCallback rpm speed).2.1
      (myLocationGenerationCallback rpm speed).2.2).1 = zeroSnapshot :=
  ⟨rfl, rfl, rfl, rfl⟩

/-- Claim C4: a well-shaped inbound frame — reply identifier, expected byte
count, service-response byte 0x41 and the quantity's PID — makes the decoder
store ((payload[3] << 8) | payload[4]) / 4 into the RPM latest-sample slot,
or payload[3] into the Speed latest-sample slot, and touch nothing else. -/
theorem decoder_wellshaped_values (f : CanFrame) (s : TrackerState)
    (hid : f.rxId = OBD_CAN_REPLY_ID) :
    ((f.rxBuf 0).val = 0x04 → (f.rxBuf 1).val = 0x41 → (f.rxBuf 2).val = PID_ENGINE_RPM →
      processFrame f s =
        { s with lastRPM :=
            Int.tdiv ((((f.rxBuf 3).val <<< 8) ||| (f.rxBuf 4).val : Nat) : Int) 4 }) ∧
    ((f.rxBuf 0).val = 0x03 → (f.rxBuf 1).val = 0x41 → (f.rxBuf 2).val = PID_VEHICLE_SPEED →
      processFrame f s = { s with lastSPEED := ((f.rxBuf 3).val : Int) }) := by
  have hbit : f.rxId &&& 0x80000000 = 0 := by
    rw [hid]
    decide
  constructor
  · intro h0 h1 h2
    unfold processFrame
    rw [if_pos hbit, if_pos ⟨hid, h0, h1, h2⟩]
  · intro h0 h1 h2
    unfold processFrame
    have hnot : ¬(f.rxId = OBD_CAN_REPLY_ID ∧ (f.rxBuf 0).val = 0x04 ∧
        (f.rxBuf 1).val = 0x41 ∧ (f.rxBuf 2).val = PID_ENGINE_RPM) := by
      intro hc
      omega
    rw [if_pos hbit, if_neg hnot, if_pos ⟨hid, h0, h1, h2⟩]

/-- Witness for C4: the concrete RPM reply frame with payload value 0x1F40
decodes to 8000 / 4 = 2000 RPM. -/
theorem decoder_wellshaped_values_witness :
    processFrame rpmReplyFrame initialState = { initialState with lastRPM := 2000 } := by
  have h := (decoder_wellshaped_values rpmReplyFrame initialState rfl).1 rfl rfl rfl
  rw [h]
  decide

/-- Claim C5: an inbound frame that matches neither expected reply shape —
wrong identifier, or correct identifier with wrong byte-count, wrong
service-response byte or wrong PID — leaves the whole program state (both
latest-sample slots and every aggregate counter) unchanged. -/
theorem decoder_mismatch_no_change (f : CanFrame) (s : TrackerState)
    (h1 : ¬ matchesRpmReply f) (h2 : ¬ matchesSpeedReply f) :
    processFrame f s = s := by
  unfold processFrame
  unfold matchesRpmReply at h1
  unfold matchesSpeedReply at h2
  by_cases hbit : f.rxId &&& 0x80000000 = 0
  · rw [if_pos hbit, if_neg h1, if_neg h2]
  · rw [if_neg hbit]

/-- Witness for C5: a frame with the correct reply identifier but byte-count
0x05 is dropped with no state change. -/
theorem decoder_mismatch_no_change_witness :
    processFrame wrongCountFrame initialState = initialState :=
  decoder_mismatch_no_change wrongCountFrame initialState (by decide) (by decide)

/-- Claim C6: the adaptive publish trigger fires only when the connectivity
signal is true, the latest RPM sample is at or above the RPM idle threshold,
the fast-publish period is strictly positive, and at least that period has
elapsed since its own last recorded firing; consequently, along any run of
loop iterations, its firing times are never closer together than the
period, even if the RPM condition stays continuously true. -/
theorem adaptive_trigger_min_interval :
    (∀ (cfg : Config) (c : Bool) (now : Nat) (s : TrackerState),
      (stepPublish cfg c now s).2 = true →
        c = true ∧ cfg.idleRPM ≤ s.lastRPM ∧ 0 < cfg.fastPublishPeriod ∧
        cfg.fastPublishPeriod.toNat ≤ wsub now s.lastFastPublish) ∧
    (∀ (cfg : Config) (s : TrackerState) (inputs : List LoopInput),
      List.Chain (fun a b => cfg.fastPublishPeriod.toNat ≤ wsub b a)
        s.lastFastPublish (fireTimes cfg s inputs)) := by
  constructor
  · intro cfg c now s h
    have hs := (stepPublish_spec cfg c now s).1 h
    exact ⟨hs.2.1, hs.2.2.1, hs.2.2.2.1, hs.2.2.2.2⟩
  · intro cfg s inputs
    exact fireTimes_chain cfg inputs s

/-- Witness for C6: a concrete firing at time 60000 with RPM 2000 and
recorded last publish time 0 satisfies all four guard conditions. -/
theorem adaptive_trigger_min_interval_witness :
    true = true ∧
    Config.default.idleRPM ≤ ({ initialState with lastRPM := 2000 } : TrackerState).lastRPM ∧
    0 < Config.default.fastPublishPeriod ∧
    Config.default.fastPublishPeriod.toNat ≤
      wsub 60000 ({ initialState with lastRPM := 2000 } : TrackerState).lastFastPublish :=
  adaptive_trigger_min_interval.1 Config.default true 60000
    { initialState with lastRPM := 2000 } (by decide)

/-- Claim C7: in every state reachable from power-on by loop iterations and
read+reset callbacks, a zero non-idle count forces the 0 sentinel in
nonIdleMin and nonIdleMax, for both quantities, so a read never reports a
stale min/max. -/
theorem nonidle_sentinel_invariant (cfg : Config) (evs : List SysEvent) :
    ((runSys cfg evs).rpmStats.nonIdleSamples = 0 →
      (runSys cfg evs).rpmStats.nonIdleMin = 0 ∧
      (runSys cfg evs).rpmStats.nonIdleMax = 0) ∧
    ((runSys cfg evs).speedStats.nonIdleSamples = 0 →
      (runSys cfg evs).speedStats.nonIdleMin = 0 ∧
      (runSys cfg evs).speedStats.nonIdleMax = 0) :=
  ⟨(goodState_runSys cfg evs).1.2.2, (goodState_runSys cfg evs).2.2.2⟩

/-- Witness for C7: after one concrete loop iteration whose period boundary
records an off sample, the RPM non-idle count is 0 and min/max report the
sentinel. -/
theorem nonidle_sentinel_invariant_witness :
    (runSys Config.default [SysEvent.iter idleInput]).rpmStats.nonIdleMin = 0 ∧
    (runSys Config.default [SysEvent.iter idleInput]).rpmStats.nonIdleMax = 0 :=
  (nonidle_sentinel_invariant Config.default [SysEvent.iter idleInput]).1 (by decide)

/-- Claim C8: the mean computed by both the debug-log path and the
telemetry callback is guarded: it is 0 when nonIdleSamples = 0, and the
truncated integer quotient nonIdleSum / nonIdleSamples otherwise. -/
theorem mean_division_guard (s : EngineStats) :
    (s.nonIdleSamples = 0 → statsMean s = 0) ∧
    (s.nonIdleSamples ≠ 0 → statsMean s = Int.tdiv s.nonIdleSum s.nonIdleSamples) := by
  unfold statsMean
  constructor
  · intro h
    rw [if_neg (fun hc => hc h)]
  · intro h
    rw [if_pos h]

/-- Counter values produced by the C2 example stream, used as a concrete
state with a non-zero non-idle count. -/
def exampleStats : EngineStats :=
  { numSamples := 5, offSamples := 1, idleSamples := 1, nonIdleSamples := 3
    nonIdleSum := 6000, nonIdleMin := 1600, nonIdleMax := 2400 }

/-- Witness for C8: both guard branches at concrete states. -/
theorem mean_division_guard_witness :
    statsMean EngineStats.init = 0 ∧
    statsMean exampleStats = Int.tdiv exampleStats.nonIdleSum exampleStats.nonIdleSamples :=
  ⟨(mean_division_guard EngineStats.init).1 rfl,
   (mean_division_guard exampleStats).2 (by decide)⟩

/-- Claim C9: a fast-publish period of 0 disables the adaptive trigger: in
any loop iteration, whatever the inputs and state, the trigger does not
fire and the recorded last publish time is unchanged. -/
theorem fastpub_zero_disables (cfg : Config) (i : LoopInput) (s : TrackerState)
    (h : cfg.fastPublishPeriod = 0) :
    (loopStep cfg i s).2 = false ∧
    (loopStep cfg i s).1.lastFastPublish = s.lastFastPublish := by
  unfold loopStep
  rw [stepPublish_period_zero cfg i.connected i.now _ h]
  exact ⟨rfl, preSteps_lastFastPublish cfg i s⟩

/-- Witness for C9: with the period set to 0, a concrete iteration does not
fire. -/
theorem fastpub_zero_disables_witness :
    (loopStep zeroPubConfig idleInput initialState).2 = false ∧
    (loopStep zeroPubConfig idleInput initialState).1.lastFastPublish =
      initialState.lastFastPublish :=
  fastpub_zero_disables zeroPubConfig idleInput initialState rfl

/-- Claim C10: in a loop iteration where the RPM request period boundary
fires, lastRPM is cleared to 0 before the adaptive publish check runs, so
with a strictly positive idle threshold the trigger cannot fire in that
iteration. -/
theorem rpm_boundary_blocks_trigger (cfg : Config) (i : LoopInput) (s : TrackerState)
    (hthr : 0 < cfg.idleRPM)
    (hdue : requestRpmPeriod ≤ wsub i.now s.requestRpmLastMillis) :
    (loopStep cfg i s).2 = false := by
  unfold loopStep
  apply stepPublish_snd_of_lt
  have h1 : (stepRpm cfg i (stepFrame i s)).lastRPM = 0 := by
    apply stepRpm_lastRPM_due
    rw [stepFrame_requestRpmLastMillis]
    exact hdue
  rw [stepLog_lastRPM, stepSpeed_lastRPM, h1]
  exact hthr

/-- Witness for C10: a concrete iteration at time 100 from the initial
state is an RPM period boundary and does not fire the trigger. -/
theorem rpm_boundary_blocks_trigger_witness :
    (loopStep Config.default idleInput initialState).2 = false :=
  rpm_boundary_blocks_trigger Config.default idleInput initialState (by decide) (by decide)
